import Mathlib

/-!
Shallow embedding of the zwift-pc-remote-control boot-orchestration core
(`api/services/pc_control.py`, `api/services/task_manager.py`,
`api/services/status_checker.py`, `api/routers/control.py`,
`api/utils/network.py`, `api/utils/ssh_client.py`, `api/models.py`).

Modelling conventions:
* A remote SSH command execution (`SSHClient.execute` / `execute_powershell`)
  is observable to its caller only as either a raised exception (connection
  failure, command timeout, unexpected error — all re-raised by `execute`)
  or a triple `(stdout, stderr, exit_code)` with `stdout`/`stderr` already
  stripped.  `RemoteOutcome` captures exactly this.
* Subprocess invocations in `api/utils/network.py` (`wakeonlan`, `ping`)
  are observable as a raised exception or a return code; `ping` also has an
  elapsed time.  `WolOutcome` / `PingOutcome` capture this.
* Each timed polling loop (`wait_for_ping`, `wait_for_availability`,
  `wait_for_desktop`, `wait_for_zwift`) performs a bounded number of
  attempts before its deadline expires; the list argument is the finite
  sequence of per-attempt remote outcomes the loop would observe, and an
  exhausted list is the timeout case (the loop returns `False`).
* Every stage method of `PCControlService` either wraps its body in
  `try/except Exception` returning a boolean, or delegates to a utility
  that does (`send_wol_packet`, `ping_host`, `is_available` all catch every
  exception).  Hence no stage ever raises, and stages are modelled as total
  boolean functions of their remote outcomes; the enclosing
  `try/except` blocks of `full_start_sequence` / `wake_only_sequence` /
  `run_start_sequence` / `run_wake_sequence` are unreachable and the
  sequences are modelled as total functions as well.
* Timestamps (`datetime.utcnow()`) are opaque clock values, modelled as
  `Nat`; task ids (`uuid4()`) are modelled as `Nat` parameters.
* Alongside its Python return value, each sequence also returns the list of
  stages (or probes) it invoked, in order, so that "stage X is invoked"
  is a statement about the embedding.
-/

namespace ZwiftRemote

/-- Outcome of one remote SSH command as seen by a caller of
`SSHClient.execute` / `SSHClient.execute_powershell`: either an exception
propagates, or a stripped `(stdout, stderr, exit_code)` triple is returned. -/
inductive RemoteOutcome where
  | raised
  | result (stdout stderr : String) (exitCode : Int)
deriving DecidableEq

/-- Outcome of the `wakeonlan` subprocess in `send_wol_packet`:
an exception, or completion with a return code. -/
inductive WolOutcome where
  | raised
  | completed (returncode : Int)
deriving DecidableEq

/-- Outcome of one `ping` subprocess in `ping_host`: an exception, or
completion with a return code and an elapsed time in milliseconds. -/
inductive PingOutcome where
  | raised
  | completed (returncode : Int) (elapsedMs : Nat)
deriving DecidableEq

/-- Outcome of one SSH connection attempt in `SSHClient.is_available`:
the connection (plus trivial round-trip command) succeeds, or anything
in the body raises. -/
inductive ConnectOutcome where
  | raised
  | connected
deriving DecidableEq

/-- Embeds `api/utils/network.py::send_wol_packet`: `True` iff the
`wakeonlan` subprocess completes with return code 0; every exception is
caught and yields `False`. -/
def send_wol_packet : WolOutcome → Bool
  | .raised => false
  | .completed returncode => if returncode = 0 then true else false

/-- Embeds `api/utils/network.py::ping_host`: `(is_online, response_time_ms)`.
Return code 0 means online with an elapsed time; a non-zero code or any
exception yields `(False, None)`. -/
def ping_host : PingOutcome → Bool × Option Nat
  | .raised => (false, none)
  | .completed returncode elapsedMs =>
      if returncode = 0 then (true, some elapsedMs) else (false, none)

/-- Embeds `api/utils/network.py::wait_for_ping`: repeated `ping_host`
attempts until one reports online (`True`) or the deadline passes with the
attempt list exhausted (`False`). -/
def wait_for_ping : List PingOutcome → Bool
  | [] => false
  | attempt :: rest => if (ping_host attempt).1 then true else wait_for_ping rest

/-- Embeds `api/utils/ssh_client.py::SSHClient.is_available`: `True` iff the
connection attempt succeeds; every exception is caught and yields `False`. -/
def is_available : ConnectOutcome → Bool
  | .raised => false
  | .connected => true

/-- Embeds `api/utils/ssh_client.py::SSHClient.wait_for_availability`:
repeated `is_available` attempts until one succeeds (`True`) or the deadline
passes with the attempt list exhausted (`False`). -/
def wait_for_availability : List ConnectOutcome → Bool
  | [] => false
  | attempt :: rest => if is_available attempt then true else wait_for_availability rest

/-- Embeds `PCControlService.wake_pc`: delegates to `send_wol_packet`. -/
def wake_pc (o : WolOutcome) : Bool := send_wol_packet o

/-- Embeds `PCControlService.wait_for_network`: delegates to `wait_for_ping`. -/
def wait_for_network (attempts : List PingOutcome) : Bool := wait_for_ping attempts

/-- Embeds `PCControlService.wait_for_ssh`: delegates to
`SSHClient.wait_for_availability`. -/
def wait_for_ssh (attempts : List ConnectOutcome) : Bool := wait_for_availability attempts

/-- Embeds `PCControlService.wait_for_desktop`: polls the remote
`Get-Process explorer` check; an attempt succeeds when the command returns
exit code 0 with non-empty stdout; a per-attempt exception is logged and
polling continues; an exhausted attempt list is the timeout (`False`). -/
def wait_for_desktop : List RemoteOutcome → Bool
  | [] => false
  | .raised :: rest => wait_for_desktop rest
  | .result stdout _ exitCode :: rest =>
      if exitCode = 0 ∧ stdout ≠ "" then true else wait_for_desktop rest

/-- Embeds `PCControlService.kill_zwift_processes`: runs the kill script and
returns `True`; any exception is caught ("not critical") and also yields
`True`. -/
def kill_zwift_processes : RemoteOutcome → Bool
  | .raised => true
  | .result _ _ _ => true

/-- Embeds `PCControlService.stop_sunshine`: `True` iff the stop script
returns exit code 0; a non-zero code or any exception yields `False`. -/
def stop_sunshine : RemoteOutcome → Bool
  | .raised => false
  | .result _ _ exitCode => if exitCode = 0 then true else false

/-- Embeds `PCControlService.start_sunshine`: `True` iff the start script
returns exit code 0; a non-zero code or any exception yields `False`. -/
def start_sunshine : RemoteOutcome → Bool
  | .raised => false
  | .result _ _ exitCode => if exitCode = 0 then true else false

/-- Embeds `PCControlService.launch_zwift`: `True` iff the
`schtasks /Run` command returns exit code 0; a non-zero code or any
exception yields `False`. -/
def launch_zwift : RemoteOutcome → Bool
  | .raised => false
  | .result _ _ exitCode => if exitCode = 0 then true else false

/-- Embeds `PCControlService.activate_zwift_launcher`: `True` iff the
keyboard-input script returns exit code 0; a non-zero code or any exception
yields `False` (logged, "not critical"). -/
def activate_zwift_launcher : RemoteOutcome → Bool
  | .raised => false
  | .result _ _ exitCode => if exitCode = 0 then true else false

/-- Embeds `PCControlService.launch_sauce`: the `schtasks /Run` command is
issued, but a non-zero exit code is only logged ("not critical - continue
anyway") and still yields `True`; any exception likewise yields `True`. -/
def launch_sauce : RemoteOutcome → Bool
  | .raised => true
  | .result _ _ exitCode => if exitCode = 0 then true else true

/-- Embeds `PCControlService.wait_for_zwift`: same polling shape as
`wait_for_desktop`, for the `ZwiftApp` process. -/
def wait_for_zwift : List RemoteOutcome → Bool
  | [] => false
  | .raised :: rest => wait_for_zwift rest
  | .result stdout _ exitCode :: rest =>
      if exitCode = 0 ∧ stdout ≠ "" then true else wait_for_zwift rest

/-- Embeds `PCControlService.set_process_priorities`: runs the priority
script and returns `True` regardless of exit code; any exception is caught
("not critical") and also yields `True`. -/
def set_process_priorities : RemoteOutcome → Bool
  | .raised => true
  | .result _ _ _ => true

/-- Embeds `PCControlService.shutdown_pc`: issues `shutdown /s /t 5` and
returns `True` whenever the command returns (its exit code is ignored);
only an exception from the channel yields `False`. -/
def shutdown_pc : RemoteOutcome → Bool
  | .raised => false
  | .result _ _ _ => true

/-- The stages of `PCControlService` used by the start sequences, named
after the Python methods, in the order `full_start_sequence` uses them. -/
inductive Stage where
  | wakePc
  | waitForNetwork
  | waitForSsh
  | waitForDesktop
  | stopSunshine
  | killZwift
  | launchZwift
  | activateLauncher
  | launchSauce
  | waitForZwift
  | setPriorities
deriving DecidableEq, Fintype

/-- Position of a stage in the `full_start_sequence` order. -/
def stageIdx : Stage → Nat
  | .wakePc => 0
  | .waitForNetwork => 1
  | .waitForSsh => 2
  | .waitForDesktop => 3
  | .stopSunshine => 4
  | .killZwift => 5
  | .launchZwift => 6
  | .activateLauncher => 7
  | .launchSauce => 8
  | .waitForZwift => 9
  | .setPriorities => 10

/-- The gating stages of the full start sequence: a `False` from one of
these aborts the rest of the sequence (`full_start_sequence` returns early;
`run_start_sequence` marks the task failed and returns). -/
def gatingStages : List Stage :=
  [.wakePc, .waitForNetwork, .waitForSsh, .waitForDesktop, .launchZwift, .waitForZwift]

/-- The remote world a start sequence runs against: one outcome (or one
bounded list of polling-attempt outcomes) per stage.  Both
`PCControlService.full_start_sequence` and
`TaskManager.run_start_sequence` invoke the same stage methods, so they are
compared against the same environment. -/
structure Env where
  wolOutcome : WolOutcome
  pingAttempts : List PingOutcome
  sshAttempts : List ConnectOutcome
  desktopAttempts : List RemoteOutcome
  stopSunshineOutcome : RemoteOutcome
  killOutcome : RemoteOutcome
  launchZwiftOutcome : RemoteOutcome
  activateOutcome : RemoteOutcome
  sauceOutcome : RemoteOutcome
  zwiftAttempts : List RemoteOutcome
  prioritiesOutcome : RemoteOutcome
deriving DecidableEq

/-- Result of running one stage against the environment (each stage method
applied to its slice of the environment). -/
def runStage (env : Env) : Stage → Bool
  | .wakePc => wake_pc env.wolOutcome
  | .waitForNetwork => wait_for_network env.pingAttempts
  | .waitForSsh => wait_for_ssh env.sshAttempts
  | .waitForDesktop => wait_for_desktop env.desktopAttempts
  | .stopSunshine => stop_sunshine env.stopSunshineOutcome
  | .killZwift => kill_zwift_processes env.killOutcome
  | .launchZwift => launch_zwift env.launchZwiftOutcome
  | .activateLauncher => activate_zwift_launcher env.activateOutcome
  | .launchSauce => launch_sauce env.sauceOutcome
  | .waitForZwift => wait_for_zwift env.zwiftAttempts
  | .setPriorities => set_process_priorities env.prioritiesOutcome

/-- The result dictionary built by `PCControlService.full_start_sequence`,
with every key initialised to `False`. -/
structure StartResults where
  wol_sent : Bool := false
  network_available : Bool := false
  ssh_available : Bool := false
  desktop_loaded : Bool := false
  sunshine_stopped : Bool := false
  zwift_killed : Bool := false
  zwift_launched : Bool := false
  sauce_launched : Bool := false
  zwift_running : Bool := false
  priorities_set : Bool := false
  success : Bool := false
deriving DecidableEq

/-- The keys of the `full_start_sequence` result dictionary other than
`success`. -/
inductive ResultKey where
  | wolSent
  | networkAvailable
  | sshAvailable
  | desktopLoaded
  | sunshineStopped
  | zwiftKilled
  | zwiftLaunched
  | sauceLaunched
  | zwiftRunning
  | prioritiesSet
deriving DecidableEq, Fintype

/-- Reads the result field named by a key. -/
def getKey (r : StartResults) : ResultKey → Bool
  | .wolSent => r.wol_sent
  | .networkAvailable => r.network_available
  | .sshAvailable => r.ssh_available
  | .desktopLoaded => r.desktop_loaded
  | .sunshineStopped => r.sunshine_stopped
  | .zwiftKilled => r.zwift_killed
  | .zwiftLaunched => r.zwift_launched
  | .sauceLaunched => r.sauce_launched
  | .zwiftRunning => r.zwift_running
  | .prioritiesSet => r.priorities_set

/-- The stage whose outcome a result key records. -/
def keyStage : ResultKey → Stage
  | .wolSent => .wakePc
  | .networkAvailable => .waitForNetwork
  | .sshAvailable => .waitForSsh
  | .desktopLoaded => .waitForDesktop
  | .sunshineStopped => .stopSunshine
  | .zwiftKilled => .killZwift
  | .zwiftLaunched => .launchZwift
  | .sauceLaunched => .launchSauce
  | .zwiftRunning => .waitForZwift
  | .prioritiesSet => .setPriorities

/-- Embeds `PCControlService.full_start_sequence` (straight-line translation
of the Python method), additionally returning the list of stages invoked,
in order.  A `False` from a gating stage is an early `return results`; the
stages `stop_sunshine`, `kill_zwift_processes`, `launch_sauce` and
`set_process_priorities` record their result without gating, and
`activate_zwift_launcher`'s result is discarded.  The method's
`try/except` wrapper is unreachable because every stage catches its own
exceptions (see module docstring). -/
def full_start_sequence (env : Env) : StartResults × List Stage :=
  let r0 : StartResults := {}
  let wol_sent := wake_pc env.wolOutcome
  let r1 := { r0 with wol_sent := wol_sent }
  if ¬wol_sent then (r1, [.wakePc]) else
  let network_available := wait_for_network env.pingAttempts
  let r2 := { r1 with network_available := network_available }
  if ¬network_available then (r2, [.wakePc, .waitForNetwork]) else
  let ssh_available := wait_for_ssh env.sshAttempts
  let r3 := { r2 with ssh_available := ssh_available }
  if ¬ssh_available then (r3, [.wakePc, .waitForNetwork, .waitForSsh]) else
  let desktop_loaded := wait_for_desktop env.desktopAttempts
  let r4 := { r3 with desktop_loaded := desktop_loaded }
  if ¬desktop_loaded then
    (r4, [.wakePc, .waitForNetwork, .waitForSsh, .waitForDesktop]) else
  let r5 := { r4 with sunshine_stopped := stop_sunshine env.stopSunshineOutcome }
  let r6 := { r5 with zwift_killed := kill_zwift_processes env.killOutcome }
  let zwift_launched := launch_zwift env.launchZwiftOutcome
  let r7 := { r6 with zwift_launched := zwift_launched }
  if ¬zwift_launched then
    (r7, [.wakePc, .waitForNetwork, .waitForSsh, .waitForDesktop,
          .stopSunshine, .killZwift, .launchZwift]) else
  let _ := activate_zwift_launcher env.activateOutcome
  let r8 := { r7 with sauce_launched := launch_sauce env.sauceOutcome }
  let zwift_running := wait_for_zwift env.zwiftAttempts
  let r9 := { r8 with zwift_running := zwift_running }
  if ¬zwift_running then
    (r9, [.wakePc, .waitForNetwork, .waitForSsh, .waitForDesktop,
          .stopSunshine, .killZwift, .launchZwift, .activateLauncher,
          .launchSauce, .waitForZwift]) else
  let r10 := { r9 with priorities_set := set_process_priorities env.prioritiesOutcome }
  let r11 := { r10 with success := true }
  (r11, [.wakePc, .waitForNetwork, .waitForSsh, .waitForDesktop,
         .stopSunshine, .killZwift, .launchZwift, .activateLauncher,
         .launchSauce, .waitForZwift, .setPriorities])

/-- The result dictionary built by `PCControlService.wake_only_sequence`. -/
structure WakeResults where
  wol_sent : Bool := false
  network_available : Bool := false
  ssh_available : Bool := false
  success : Bool := false
deriving DecidableEq

/-- Embeds `PCControlService.wake_only_sequence` (straight-line translation),
additionally returning the list of stages invoked, in order.  All three
stages gate. -/
def wake_only_sequence (env : Env) : WakeResults × List Stage :=
  let r0 : WakeResults := {}
  let wol_sent := wake_pc env.wolOutcome
  let r1 := { r0 with wol_sent := wol_sent }
  if ¬wol_sent then (r1, [.wakePc]) else
  let network_available := wait_for_network env.pingAttempts
  let r2 := { r1 with network_available := network_available }
  if ¬network_available then (r2, [.wakePc, .waitForNetwork]) else
  let ssh_available := wait_for_ssh env.sshAttempts
  let r3 := { r2 with ssh_available := ssh_available }
  if ¬ssh_available then (r3, [.wakePc, .waitForNetwork, .waitForSsh]) else
  let r4 := { r3 with success := true }
  (r4, [.wakePc, .waitForNetwork, .waitForSsh])

/-- Embeds `api/models.py::TaskStatus` (a `str` enum with values
"pending", "running", "completed", "failed"). -/
inductive TaskStatus where
  | pending
  | running
  | completed
  | failed
deriving DecidableEq, Fintype

/-- Embeds `api/models.py::TaskProgress`. -/
structure TaskProgress where
  current_step : String
  step_number : Int
  total_steps : Int
  details : Option String := none
deriving DecidableEq

/-- Embeds `api/models.py::Task`; `uuid4()` ids and `datetime` timestamps
are opaque and modelled as `Nat`. -/
structure Task where
  task_id : Nat
  status : TaskStatus
  task_type : String
  progress : Option TaskProgress := none
  error : Option String := none
  created_at : Nat
  started_at : Option Nat := none
  completed_at : Option Nat := none
deriving DecidableEq

/-- The `TaskManager.tasks` dictionary, as an association list keyed by
task id (lookup takes the first match; ids are unique in practice since
`create_task` allocates fresh ids). -/
abbrev TaskMap := List (Nat × Task)

/-- Embeds `self.tasks.get(task_id)`. -/
def getTask : TaskMap → Nat → Option Task
  | [], _ => none
  | (k, t) :: rest, i => if k = i then some t else getTask rest i

/-- Replaces the entry for an existing key, mirroring the in-place mutation
of the `Task` object held in the dictionary (a missing key is untouched;
the operations below only call this after a successful `getTask`). -/
def setTask : TaskMap → Nat → Task → TaskMap
  | [], _, _ => []
  | (k, t) :: rest, i, t2 => if k = i then (k, t2) :: rest else (k, t) :: setTask rest i t2

/-- Embeds `TaskManager.create_task`: a fresh task with status
`PENDING` and no progress/error/timestamps beyond `created_at`, inserted
into the map and returned. -/
def create_task (m : TaskMap) (i : Nat) (task_type : String) (now : Nat) : TaskMap × Task :=
  let t : Task := { task_id := i, status := .pending, task_type := task_type, created_at := now }
  ((i, t) :: m, t)

/-- Embeds `TaskManager.update_task_progress`: if the id is present,
replace the task's `progress`; otherwise do nothing. -/
def update_task_progress (m : TaskMap) (i : Nat) (step : String)
    (step_number total_steps : Int) (details : Option String) : TaskMap :=
  match getTask m i with
  | none => m
  | some t =>
      let p : TaskProgress :=
        { current_step := step, step_number := step_number,
          total_steps := total_steps, details := details }
      setTask m i { t with progress := some p }

/-- Embeds `TaskManager.mark_task_running`: if the id is present, set
status `RUNNING` and stamp `started_at`; otherwise do nothing. -/
def mark_task_running (m : TaskMap) (i : Nat) (now : Nat) : TaskMap :=
  match getTask m i with
  | none => m
  | some t => setTask m i { t with status := .running, started_at := some now }

/-- Embeds `TaskManager.mark_task_completed`: if the id is present, set
status `COMPLETED` and stamp `completed_at`; otherwise do nothing. -/
def mark_task_completed (m : TaskMap) (i : Nat) (now : Nat) : TaskMap :=
  match getTask m i with
  | none => m
  | some t => setTask m i { t with status := .completed, completed_at := some now }

/-- Embeds `TaskManager.mark_task_failed`: if the id is present, set
status `FAILED`, stamp `completed_at` and store the error message;
otherwise do nothing. -/
def mark_task_failed (m : TaskMap) (i : Nat) (error : String) (now : Nat) : TaskMap :=
  match getTask m i with
  | none => m
  | some t => setTask m i
      { t with status := .failed, completed_at := some now, error := some error }

/-- What a task-manager sequence run produces in the embedding: the final
task map, the snapshot of the tracked task after every map mutation (in
order), and the `PCControlService` stages invoked, in order. -/
structure RunTrace where
  tasks : TaskMap
  snaps : List (Option Task)
  invoked : List Stage
deriving DecidableEq

/-- Embeds `TaskManager.run_start_sequence` (straight-line translation of
the Python method): mark running, then per step publish progress, invoke
the stage, and on a gating stage's `False` mark the task failed with the
stage-specific message and return.  Note the Python method does not invoke
`kill_zwift_processes` (unlike `PCControlService.full_start_sequence`).
The outer `try/except` is unreachable because every stage and every task
operation is total (see module docstring). -/
def run_start_sequence (env : Env) (m : TaskMap) (i : Nat) (clock : Nat) : RunTrace :=
  let m1 := mark_task_running m i clock
  let m2 := update_task_progress m1 i "Sending Wake-on-LAN packet" 1 9 none
  let s2 := [getTask m1 i, getTask m2 i]
  let wol_sent := wake_pc env.wolOutcome
  if ¬wol_sent then
    let mf := mark_task_failed m2 i "Failed to send WoL packet" clock
    ⟨mf, s2 ++ [getTask mf i], [.wakePc]⟩
  else
  let m3 := update_task_progress m2 i "Waiting for PC to respond to network" 2 9 none
  let s3 := s2 ++ [getTask m3 i]
  let network_available := wait_for_network env.pingAttempts
  if ¬network_available then
    let mf := mark_task_failed m3 i "PC did not respond to network" clock
    ⟨mf, s3 ++ [getTask mf i], [.wakePc, .waitForNetwork]⟩
  else
  let m4 := update_task_progress m3 i "Waiting for SSH to become available" 3 9 none
  let s4 := s3 ++ [getTask m4 i]
  let ssh_available := wait_for_ssh env.sshAttempts
  if ¬ssh_available then
    let mf := mark_task_failed m4 i "SSH did not become available" clock
    ⟨mf, s4 ++ [getTask mf i], [.wakePc, .waitForNetwork, .waitForSsh]⟩
  else
  let m5 := update_task_progress m4 i "Waiting for Windows desktop to load" 4 9 none
  let s5 := s4 ++ [getTask m5 i]
  let desktop_loaded := wait_for_desktop env.desktopAttempts
  if ¬desktop_loaded then
    let mf := mark_task_failed m5 i "Windows desktop did not load" clock
    ⟨mf, s5 ++ [getTask mf i], [.wakePc, .waitForNetwork, .waitForSsh, .waitForDesktop]⟩
  else
  let m6 := update_task_progress m5 i "Stopping Sunshine service" 5 9 none
  let s6 := s5 ++ [getTask m6 i]
  let _ := stop_sunshine env.stopSunshineOutcome
  let m7 := update_task_progress m6 i "Launching Zwift application" 6 9 none
  let s7 := s6 ++ [getTask m7 i]
  let zwift_launched := launch_zwift env.launchZwiftOutcome
  if ¬zwift_launched then
    let mf := mark_task_failed m7 i "Failed to launch Zwift" clock
    ⟨mf, s7 ++ [getTask mf i],
     [.wakePc, .waitForNetwork, .waitForSsh, .waitForDesktop, .stopSunshine, .launchZwift]⟩
  else
  let m8 := update_task_progress m7 i "Activating Zwift launcher" 6 9 none
  let s8 := s7 ++ [getTask m8 i]
  let _ := activate_zwift_launcher env.activateOutcome
  let m9 := update_task_progress m8 i "Launching Sauce for Zwift" 7 9 none
  let s9 := s8 ++ [getTask m9 i]
  let _ := launch_sauce env.sauceOutcome
  let m10 := update_task_progress m9 i "Waiting for Zwift to start" 8 9 none
  let s10 := s9 ++ [getTask m10 i]
  let zwift_running := wait_for_zwift env.zwiftAttempts
  if ¬zwift_running then
    let mf := mark_task_failed m10 i "Zwift did not start" clock
    ⟨mf, s10 ++ [getTask mf i],
     [.wakePc, .waitForNetwork, .waitForSsh, .waitForDesktop, .stopSunshine,
      .launchZwift, .activateLauncher, .launchSauce, .waitForZwift]⟩
  else
  let m11 := update_task_progress m10 i "Setting process priorities" 9 9 none
  let s11 := s10 ++ [getTask m11 i]
  let _ := set_process_priorities env.prioritiesOutcome
  let mc := mark_task_completed m11 i clock
  ⟨mc, s11 ++ [getTask mc i],
   [.wakePc, .waitForNetwork, .waitForSsh, .waitForDesktop, .stopSunshine,
    .launchZwift, .activateLauncher, .launchSauce, .waitForZwift, .setPriorities]⟩

/-- Embeds `TaskManager.run_wake_sequence` (straight-line translation):
mark running, then the three gating wake stages with progress published
before each, failing with the stage-specific message on a `False`. -/
def run_wake_sequence (env : Env) (m : TaskMap) (i : Nat) (clock : Nat) : RunTrace :=
  let m1 := mark_task_running m i clock
  let m2 := update_task_progress m1 i "Sending Wake-on-LAN packet" 1 3 none
  let s2 := [getTask m1 i, getTask m2 i]
  let wol_sent := wake_pc env.wolOutcome
  if ¬wol_sent then
    let mf := mark_task_failed m2 i "Failed to send WoL packet" clock
    ⟨mf, s2 ++ [getTask mf i], [.wakePc]⟩
  else
  let m3 := update_task_progress m2 i "Waiting for PC to respond to network" 2 3 none
  let s3 := s2 ++ [getTask m3 i]
  let network_available := wait_for_network env.pingAttempts
  if ¬network_available then
    let mf := mark_task_failed m3 i "PC did not respond to network" clock
    ⟨mf, s3 ++ [getTask mf i], [.wakePc, .waitForNetwork]⟩
  else
  let m4 := update_task_progress m3 i "Waiting for SSH to become available" 3 3 none
  let s4 := s3 ++ [getTask m4 i]
  let ssh_available := wait_for_ssh env.sshAttempts
  if ¬ssh_available then
    let mf := mark_task_failed m4 i "SSH did not become available" clock
    ⟨mf, s4 ++ [getTask mf i], [.wakePc, .waitForNetwork, .waitForSsh]⟩
  else
  let mc := mark_task_completed m4 i clock
  ⟨mc, s4 ++ [getTask mc i], [.wakePc, .waitForNetwork, .waitForSsh]⟩

/-- Embeds `api/models.py::PCStatus` (the constant `ip_address` field and
the wall-clock `timestamp` default are omitted as environment constants
with no behavioural content). -/
structure PCStatus where
  online : Bool
  ssh_available : Bool
  response_time_ms : Option Nat := none
deriving DecidableEq

/-- Embeds `api/models.py::ZwiftStatus` (also reused for OBS);
`cpu_usage` is a float in the source and is kept opaque here. -/
structure ZwiftStatus where
  running : Bool
  process_id : Option Int := none
  memory_mb : Option Int := none
deriving DecidableEq

/-- Embeds `api/models.py::ServiceStatus`. -/
structure ServiceStatus where
  name : String
  running : Bool
  status : Option String := none
deriving DecidableEq

/-- Embeds `api/models.py::FullStatus` (timestamp omitted). -/
structure FullStatus where
  pc : PCStatus
  zwift : Option ZwiftStatus := none
  sunshine : Option ServiceStatus := none
  obs : Option ZwiftStatus := none
deriving DecidableEq

/-- The probes a `StatusChecker` call may invoke. -/
inductive Probe where
  | ping
  | sshCheck
  | zwiftCheck
  | sunshineCheck
  | obsCheck
deriving DecidableEq, Fintype

/-- Remote world for the status checker: the ping outcome, the SSH
connection-attempt outcome, and the values the three detailed probes would
report if invoked.  `check_zwift_running` / `check_sunshine_status` /
`check_obs_running` each catch every exception internally and return a
status value, so they are opaque total probes here. -/
structure StatusEnv where
  pingOutcome : PingOutcome
  connectOutcome : ConnectOutcome
  zwiftProbe : ZwiftStatus
  sunshineProbe : ServiceStatus
  obsProbe : ZwiftStatus
deriving DecidableEq

/-- Embeds `StatusChecker.check_pc_online`, additionally returning the
probes invoked: ping first; `ssh_available` starts `False` and the SSH
check runs only if the ping succeeded. -/
def check_pc_online (env : StatusEnv) : PCStatus × List Probe :=
  let r := ping_host env.pingOutcome
  if r.1 then
    let ssh_available := is_available env.connectOutcome
    ({ online := r.1, ssh_available := ssh_available, response_time_ms := r.2 },
     [.ping, .sshCheck])
  else
    ({ online := r.1, ssh_available := false, response_time_ms := r.2 }, [.ping])

/-- Embeds `StatusChecker.check_full_status`, additionally returning the
probes invoked: always `check_pc_online` first; the three detailed probes
run only if the PC is online and SSH is available, the detail fields
staying `None` otherwise.  The `try/except` around the detail probes is
unreachable because each probe catches its own exceptions. -/
def check_full_status (env : StatusEnv) : FullStatus × List Probe :=
  let pcr := check_pc_online env
  let pc := pcr.1
  if pc.online && pc.ssh_available then
    ({ pc := pc, zwift := some env.zwiftProbe, sunshine := some env.sunshineProbe,
       obs := some env.obsProbe },
     pcr.2 ++ [.zwiftCheck, .sunshineCheck, .obsCheck])
  else
    ({ pc := pc }, pcr.2)

/-- Embeds `api/models.py::StopResponse`. -/
structure StopResponse where
  success : Bool
  message : String
deriving DecidableEq

/-- Outcome of a synchronous endpoint: a raised `HTTPException` with a
status code and detail, or a response value. -/
inductive StopResult where
  | httpError (statusCode : Nat) (detail : String)
  | ok (response : StopResponse)
deriving DecidableEq

/-- Embeds `api/routers/control.py::stop_pc` (the `POST stop` endpoint),
additionally returning whether `shutdown_pc` was invoked: ping the host
first and raise 400 if offline; otherwise run `shutdown_pc` and raise 500
if it reports failure; otherwise answer `success=True`. -/
def stop_pc (pingOutcome : PingOutcome) (shutdownOutcome : RemoteOutcome) :
    StopResult × Bool :=
  let r := ping_host pingOutcome
  if ¬r.1 then
    (.httpError 400 "PC is not online. Cannot send shutdown command.", false)
  else
    let success := shutdown_pc shutdownOutcome
    if ¬success then
      (.httpError 500 "Failed to send shutdown command to PC.", true)
    else
      (.ok { success := true,
             message := "Shutdown command sent. PC will shut down in 5 seconds." }, true)

/-- Serialization of `TaskStatus` to its external string value (the `str`
enum's value, which is what pydantic emits for the model dump). -/
def statusToStr : TaskStatus → String
  | .pending => "pending"
  | .running => "running"
  | .completed => "completed"
  | .failed => "failed"

/-- Parsing of an external status string back into `TaskStatus` (pydantic
validation of the `str` enum field; an unknown value is a validation
error). -/
def statusOfStr (s : String) : Option TaskStatus :=
  if s = "pending" then some .pending
  else if s = "running" then some .running
  else if s = "completed" then some .completed
  else if s = "failed" then some .failed
  else none

/-- The external representation of a `Task` (its pydantic model dump):
the status as its string value, the nested progress structure, optional
fields as optionals, timestamps as opaque clock values. -/
structure TaskExt where
  task_id : Nat
  status : String
  task_type : String
  progress : Option TaskProgress
  error : Option String
  created_at : Nat
  started_at : Option Nat
  completed_at : Option Nat
deriving DecidableEq

/-- Serializes a `Task` to its external representation. -/
def dumpTask (t : Task) : TaskExt :=
  { task_id := t.task_id, status := statusToStr t.status, task_type := t.task_type,
    progress := t.progress, error := t.error, created_at := t.created_at,
    started_at := t.started_at, completed_at := t.completed_at }

/-- Parses an external representation back into a `Task` (fails on an
unknown status value, as pydantic validation would). -/
def parseTask (e : TaskExt) : Option Task :=
  match statusOfStr e.status with
  | none => none
  | some st =>
      some { task_id := e.task_id, status := st, task_type := e.task_type,
             progress := e.progress, error := e.error, created_at := e.created_at,
             started_at := e.started_at, completed_at := e.completed_at }

/-- `True` when the pattern is a prefix of the character list. -/
def charsStartWith : List Char → List Char → Bool
  | [], _ => true
  | _ :: _, [] => false
  | p :: ps, c :: cs => p == c && charsStartWith ps cs

/-- `True` when the pattern occurs somewhere in the character list. -/
def containsChars (pat : List Char) : List Char → Bool
  | [] => charsStartWith pat []
  | c :: cs => charsStartWith pat (c :: cs) || containsChars pat cs

/-- `True` when the string mentions "Zwift". -/
def mentionsZwift (s : String) : Bool := containsChars "Zwift".data s.data

/-- One legal task status step: stay put, `Pending → Running`
(`mark_task_running`), or `Running → Completed/Failed`
(`mark_task_completed` / `mark_task_failed`); in particular no step leaves
a terminal status. -/
def okStep (a b : Task) : Bool :=
  (a.status == b.status) ||
  (a.status == .pending && b.status == .running) ||
  (a.status == .running && (b.status == .completed || b.status == .failed))

/-- Field invariant of a task: `started_at` set iff the status has left
`Pending`; `completed_at` set iff the status is terminal; `error` set iff
the status is `Failed`. -/
def fieldInv (t : Task) : Bool :=
  (t.started_at.isSome == !(t.status == .pending)) &&
  (t.completed_at.isSome == (t.status == .completed || t.status == .failed)) &&
  (t.error.isSome == (t.status == .failed))

/-- Checks a list of task snapshots against a starting task: every
snapshot must be present (`some`), reached by a legal status step from its
predecessor, and satisfy the field invariant. -/
def snapsOk (a : Task) : List (Option Task) → Bool
  | [] => true
  | none :: _ => false
  | some b :: rest => okStep a b && fieldInv b && snapsOk b rest

/-- A sample task as `create_task` would build it (used to instantiate
hypotheses of the theorems at concrete inputs). -/
def sampleTask : Task :=
  { task_id := 1, status := .pending, task_type := "start", created_at := 0 }

/-- C6: the best-effort stages `kill_zwift_processes`, `launch_sauce` and
`set_process_priorities` return `True` for every possible remote outcome —
including a non-zero exit code and a raised exception from the SSH
channel — and, being total functions of the outcome, never propagate an
exception to their caller. -/
theorem best_effort_stages_always_true :
    ∀ o : RemoteOutcome,
      kill_zwift_processes o = true ∧ launch_sauce o = true ∧
      set_process_priorities o = true := by
  intro o
  cases o <;> simp [kill_zwift_processes, launch_sauce, set_process_priorities]

/-- C9: serializing any `Task` to its external representation and parsing
it back succeeds and yields the identical task — in particular identical
status, progress (step label, step number, total steps, details) and
timestamps. -/
theorem task_roundtrip : ∀ t : Task, parseTask (dumpTask t) = some t := by
  intro t
  cases t with
  | mk task_id status task_type progress error created_at started_at completed_at =>
      cases status <;> simp [dumpTask, parseTask, statusToStr, statusOfStr]

/-- C10: calling `update_task_progress`, `mark_task_running`,
`mark_task_completed` or `mark_task_failed` with a task id that is not in
the map leaves the map entirely unchanged (and, being total functions,
they raise nothing). -/
theorem missing_id_noop :
    ∀ (m : TaskMap) (i : Nat) (step : String) (sn ts : Int) (d : Option String)
      (err : String) (now : Nat), getTask m i = none →
      update_task_progress m i step sn ts d = m ∧
      mark_task_running m i now = m ∧
      mark_task_completed m i now = m ∧
      mark_task_failed m i err now = m := by
  intro m i step sn ts d err now h
  simp [update_task_progress, mark_task_running, mark_task_completed,
        mark_task_failed, h]

/-- Concrete instance of `missing_id_noop`: a one-entry map and an absent
id. -/
theorem missing_id_noop_witness :
    getTask [(1, sampleTask)] 2 = none ∧
    (update_task_progress [(1, sampleTask)] 2 "step" 1 9 none = [(1, sampleTask)] ∧
     mark_task_running [(1, sampleTask)] 2 7 = [(1, sampleTask)] ∧
     mark_task_completed [(1, sampleTask)] 2 7 = [(1, sampleTask)] ∧
     mark_task_failed [(1, sampleTask)] 2 "err" 7 = [(1, sampleTask)]) :=
  ⟨by decide, missing_id_noop [(1, sampleTask)] 2 "step" 1 9 none "err" 7 (by decide)⟩

/-- C8: the synchronous `POST stop` endpoint raises HTTP 400 when the ping
probe reports the host offline — without attempting the shutdown command —
raises HTTP 500 when the ping succeeds but `shutdown_pc` returns `False`,
and otherwise answers with `success=True`. -/
theorem stop_endpoint_behaviour :
    ∀ (p : PingOutcome) (o : RemoteOutcome),
      ((ping_host p).1 = false →
        stop_pc p o =
          (.httpError 400 "PC is not online. Cannot send shutdown command.", false)) ∧
      ((ping_host p).1 = true → shutdown_pc o = false →
        stop_pc p o =
          (.httpError 500 "Failed to send shutdown command to PC.", true)) ∧
      ((ping_host p).1 = true → shutdown_pc o = true →
        stop_pc p o =
          (.ok { success := true,
                 message := "Shutdown command sent. PC will shut down in 5 seconds." },
           true)) := by
  intro p o
  refine ⟨fun h => ?_, fun h hs => ?_, fun h hs => ?_⟩
  · simp [stop_pc, h]
  · simp [stop_pc, h, hs]
  · simp [stop_pc, h, hs]

/-- Concrete instance of `stop_endpoint_behaviour`: host online, shutdown
command returns, endpoint answers `success=True`. -/
theorem stop_endpoint_behaviour_witness :
    (ping_host (.completed 0 5)).1 = true ∧
    shutdown_pc (.result "" "" 0) = true ∧
    stop_pc (.completed 0 5) (.result "" "" 0) =
      (.ok { success := true,
             message := "Shutdown command sent. PC will shut down in 5 seconds." },
       true) :=
  ⟨by decide, by decide,
   (stop_endpoint_behaviour (.completed 0 5) (.result "" "" 0)).2.2
     (by decide) (by decide)⟩

/-- C5: `check_full_status` leaves the Zwift/Sunshine/OBS probes uninvoked
(and their fields `None`) unless the PC is online and SSH is available,
and `check_pc_online` leaves the SSH-availability probe uninvoked (and
`ssh_available = False`) when the ping probe reports the host offline. -/
theorem status_short_circuit :
    ∀ env : StatusEnv,
      (¬((check_pc_online env).1.online = true ∧
         (check_pc_online env).1.ssh_available = true) →
        (check_full_status env).1.zwift = none ∧
        (check_full_status env).1.sunshine = none ∧
        (check_full_status env).1.obs = none ∧
        Probe.zwiftCheck ∉ (check_full_status env).2 ∧
        Probe.sunshineCheck ∉ (check_full_status env).2 ∧
        Probe.obsCheck ∉ (check_full_status env).2) ∧
      ((ping_host env.pingOutcome).1 = false →
        Probe.sshCheck ∉ (check_pc_online env).2 ∧
        (check_pc_online env).1.ssh_available = false) := by
  intro env
  constructor
  · intro h
    cases hp : (ping_host env.pingOutcome).1 <;>
      cases hs : is_available env.connectOutcome <;>
        simp_all [check_full_status, check_pc_online]
  · intro h
    simp [check_pc_online, h]

/-- Concrete instance of `status_short_circuit`: ping fails, so nothing
beyond the ping probe runs. -/
theorem status_short_circuit_witness :
    (¬(((check_pc_online
          { pingOutcome := .raised, connectOutcome := .connected,
            zwiftProbe := { running := false },
            sunshineProbe := { name := "SunshineService", running := false },
            obsProbe := { running := false } }).1.online = true ∧
        (check_pc_online
          { pingOutcome := .raised, connectOutcome := .connected,
            zwiftProbe := { running := false },
            sunshineProbe := { name := "SunshineService", running := false },
            obsProbe := { running := false } }).1.ssh_available = true)) ∧
     (check_full_status
        { pingOutcome := .raised, connectOutcome := .connected,
          zwiftProbe := { running := false },
          sunshineProbe := { name := "SunshineService", running := false },
          obsProbe := { running := false } }).1.zwift = none) := by
  have h := status_short_circuit
    { pingOutcome := .raised, connectOutcome := .connected,
      zwiftProbe := { running := false },
      sunshineProbe := { name := "SunshineService", running := false },
      obsProbe := { running := false } }
  exact ⟨by decide, (h.1 (by decide)).1⟩

/-- C4: `wake_only_sequence` succeeds exactly when `wake_pc`,
`wait_for_network` and `wait_for_ssh` all return `True`, invoked in that
order; the first `False` stops the sequence, leaving the later stages
uninvoked and their result fields `False`. -/
theorem wake_only_spec :
    ∀ env : Env,
      ((wake_only_sequence env).1.success = true ↔
        (wake_pc env.wolOutcome = true ∧ wait_for_network env.pingAttempts = true ∧
         wait_for_ssh env.sshAttempts = true)) ∧
      (wake_pc env.wolOutcome = false →
        (wake_only_sequence env).2 = [.wakePc] ∧
        (wake_only_sequence env).1.network_available = false ∧
        (wake_only_sequence env).1.ssh_available = false) ∧
      (wake_pc env.wolOutcome = true → wait_for_network env.pingAttempts = false →
        (wake_only_sequence env).2 = [.wakePc, .waitForNetwork] ∧
        (wake_only_sequence env).1.ssh_available = false) ∧
      (wake_pc env.wolOutcome = true → wait_for_network env.pingAttempts = true →
        wait_for_ssh env.sshAttempts = false →
        (wake_only_sequence env).2 = [.wakePc, .waitForNetwork, .waitForSsh]) ∧
      (wake_pc env.wolOutcome = true → wait_for_network env.pingAttempts = true →
        wait_for_ssh env.sshAttempts = true →
        (wake_only_sequence env).2 = [.wakePc, .waitForNetwork, .waitForSsh]) := by
  intro env
  cases hw : wake_pc env.wolOutcome <;>
    cases hn : wait_for_network env.pingAttempts <;>
      cases hs : wait_for_ssh env.sshAttempts <;>
        simp [wake_only_sequence, hw, hn, hs]

/-- Concrete instance of `wake_only_spec`: the wake stage fails and only
the wake stage is invoked. -/
theorem wake_only_spec_witness :
    wake_pc WolOutcome.raised = false ∧
    (wake_only_sequence
      { wolOutcome := .raised, pingAttempts := [], sshAttempts := [],
        desktopAttempts := [], stopSunshineOutcome := .raised,
        killOutcome := .raised, launchZwiftOutcome := .raised,
        activateOutcome := .raised, sauceOutcome := .raised,
        zwiftAttempts := [], prioritiesOutcome := .raised }).2 = [.wakePc] := by
  have h := wake_only_spec
    { wolOutcome := .raised, pingAttempts := [], sshAttempts := [],
      desktopAttempts := [], stopSunshineOutcome := .raised,
      killOutcome := .raised, launchZwiftOutcome := .raised,
      activateOutcome := .raised, sauceOutcome := .raised,
      zwiftAttempts := [], prioritiesOutcome := .raised }
  exact ⟨by decide, (h.2.1 (by decide)).1⟩

/-- Shape of `full_start_sequence` when `wake_pc` fails. -/
theorem fss_wake_false (env : Env) (h1 : wake_pc env.wolOutcome = false) :
    full_start_sequence env = ({ wol_sent := false }, [.wakePc]) := by
  simp [full_start_sequence, h1]

/-- Shape of `full_start_sequence` when `wait_for_network` fails. -/
theorem fss_network_false (env : Env) (h1 : wake_pc env.wolOutcome = true)
    (h2 : wait_for_network env.pingAttempts = false) :
    full_start_sequence env = ({ wol_sent := true }, [.wakePc, .waitForNetwork]) := by
  simp [full_start_sequence, h1, h2]

/-- Shape of `full_start_sequence` when `wait_for_ssh` fails. -/
theorem fss_ssh_false (env : Env) (h1 : wake_pc env.wolOutcome = true)
    (h2 : wait_for_network env.pingAttempts = true)
    (h3 : wait_for_ssh env.sshAttempts = false) :
    full_start_sequence env =
      ({ wol_sent := true, network_available := true },
       [.wakePc, .waitForNetwork, .waitForSsh]) := by
  simp [full_start_sequence, h1, h2, h3]

/-- Shape of `full_start_sequence` when `wait_for_desktop` fails. -/
theorem fss_desktop_false (env : Env) (h1 : wake_pc env.wolOutcome = true)
    (h2 : wait_for_network env.pingAttempts = true)
    (h3 : wait_for_ssh env.sshAttempts = true)
    (h4 : wait_for_desktop env.desktopAttempts = false) :
    full_start_sequence env =
      ({ wol_sent := true, network_available := true, ssh_available := true },
       [.wakePc, .waitForNetwork, .waitForSsh, .waitForDesktop]) := by
  simp [full_start_sequence, h1, h2, h3, h4]

/-- Shape of `full_start_sequence` when `launch_zwift` fails. -/
theorem fss_launch_false (env : Env) (h1 : wake_pc env.wolOutcome = true)
    (h2 : wait_for_network env.pingAttempts = true)
    (h3 : wait_for_ssh env.sshAttempts = true)
    (h4 : wait_for_desktop env.desktopAttempts = true)
    (h5 : launch_zwift env.launchZwiftOutcome = false) :
    full_start_sequence env =
      ({ wol_sent := true, network_available := true, ssh_available := true,
         desktop_loaded := true,
         sunshine_stopped := stop_sunshine env.stopSunshineOutcome,
         zwift_killed := kill_zwift_processes env.killOutcome },
       [.wakePc, .waitForNetwork, .waitForSsh, .waitForDesktop,
        .stopSunshine, .killZwift, .launchZwift]) := by
  simp [full_start_sequence, h1, h2, h3, h4, h5]

/-- Shape of `full_start_sequence` when `wait_for_zwift` fails. -/
theorem fss_zwift_false (env : Env) (h1 : wake_pc env.wolOutcome = true)
    (h2 : wait_for_network env.pingAttempts = true)
    (h3 : wait_for_ssh env.sshAttempts = true)
    (h4 : wait_for_desktop env.desktopAttempts = true)
    (h5 : launch_zwift env.launchZwiftOutcome = true)
    (h6 : wait_for_zwift env.zwiftAttempts = false) :
    full_start_sequence env =
      ({ wol_sent := true, network_available := true, ssh_available := true,
         desktop_loaded := true,
         sunshine_stopped := stop_sunshine env.stopSunshineOutcome,
         zwift_killed := kill_zwift_processes env.killOutcome,
         zwift_launched := true,
         sauce_launched := launch_sauce env.sauceOutcome },
       [.wakePc, .waitForNetwork, .waitForSsh, .waitForDesktop,
        .stopSunshine, .killZwift, .launchZwift, .activateLauncher,
        .launchSauce, .waitForZwift]) := by
  simp [full_start_sequence, h1, h2, h3, h4, h5, h6]

/-- Shape of `full_start_sequence` when every gating stage succeeds. -/
theorem fss_success (env : Env) (h1 : wake_pc env.wolOutcome = true)
    (h2 : wait_for_network env.pingAttempts = true)
    (h3 : wait_for_ssh env.sshAttempts = true)
    (h4 : wait_for_desktop env.desktopAttempts = true)
    (h5 : launch_zwift env.launchZwiftOutcome = true)
    (h6 : wait_for_zwift env.zwiftAttempts = true) :
    full_start_sequence env =
      ({ wol_sent := true, network_available := true, ssh_available := true,
         desktop_loaded := true,
         sunshine_stopped := stop_sunshine env.stopSunshineOutcome,
         zwift_killed := kill_zwift_processes env.killOutcome,
         zwift_launched := true,
         sauce_launched := launch_sauce env.sauceOutcome,
         zwift_running := true,
         priorities_set := set_process_priorities env.prioritiesOutcome,
         success := true },
       [.wakePc, .waitForNetwork, .waitForSsh, .waitForDesktop,
        .stopSunshine, .killZwift, .launchZwift, .activateLauncher,
        .launchSauce, .waitForZwift, .setPriorities]) := by
  simp [full_start_sequence, h1, h2, h3, h4, h5, h6]

/-- C1: in `full_start_sequence`, if a gating stage (`wake_pc`,
`wait_for_network`, `wait_for_ssh`, `wait_for_desktop`, `launch_zwift`,
`wait_for_zwift`) is invoked and returns `False`, then no stage after it
in the sequence order is invoked, the returned result map has
`success=False`, and every result key belonging to a stage after it is
`False`. -/
theorem full_start_gating :
    ∀ (env : Env) (g : Stage), g ∈ gatingStages → runStage env g = false →
      g ∈ (full_start_sequence env).2 →
      (∀ s : Stage, stageIdx g < stageIdx s → s ∉ (full_start_sequence env).2) ∧
      (full_start_sequence env).1.success = false ∧
      (∀ k : ResultKey, stageIdx g < stageIdx (keyStage k) →
        getKey (full_start_sequence env).1 k = false) := by
  intro env g hg hfalse hmem
  fin_cases hg <;> simp only [runStage] at hfalse
  · rw [fss_wake_false env hfalse] at hmem ⊢
    exact ⟨fun s hs => by fin_cases s <;> simp_all [stageIdx], rfl,
           fun k hk => by fin_cases k <;> simp_all [stageIdx, keyStage, getKey]⟩
  · cases h1 : wake_pc env.wolOutcome
    · rw [fss_wake_false env h1] at hmem; simp at hmem
    · rw [fss_network_false env h1 hfalse] at hmem ⊢
      exact ⟨fun s hs => by fin_cases s <;> simp_all [stageIdx], rfl,
             fun k hk => by fin_cases k <;> simp_all [stageIdx, keyStage, getKey]⟩
  · cases h1 : wake_pc env.wolOutcome
    · rw [fss_wake_false env h1] at hmem; simp at hmem
    · cases h2 : wait_for_network env.pingAttempts
      · rw [fss_network_false env h1 h2] at hmem; simp at hmem
      · rw [fss_ssh_false env h1 h2 hfalse] at hmem ⊢
        exact ⟨fun s hs => by fin_cases s <;> simp_all [stageIdx], rfl,
               fun k hk => by fin_cases k <;> simp_all [stageIdx, keyStage, getKey]⟩
  · cases h1 : wake_pc env.wolOutcome
    · rw [fss_wake_false env h1] at hmem; simp at hmem
    · cases h2 : wait_for_network env.pingAttempts
      · rw [fss_network_false env h1 h2] at hmem; simp at hmem
      · cases h3 : wait_for_ssh env.sshAttempts
        · rw [fss_ssh_false env h1 h2 h3] at hmem; simp at hmem
        · rw [fss_desktop_false env h1 h2 h3 hfalse] at hmem ⊢
          exact ⟨fun s hs => by fin_cases s <;> simp_all [stageIdx], rfl,
                 fun k hk => by fin_cases k <;> simp_all [stageIdx, keyStage, getKey]⟩
  · cases h1 : wake_pc env.wolOutcome
    · rw [fss_wake_false env h1] at hmem; simp at hmem
    · cases h2 : wait_for_network env.pingAttempts
      · rw [fss_network_false env h1 h2] at hmem; simp at hmem
      · cases h3 : wait_for_ssh env.sshAttempts
        · rw [fss_ssh_false env h1 h2 h3] at hmem; simp at hmem
        · cases h4 : wait_for_desktop env.desktopAttempts
          · rw [fss_desktop_false env h1 h2 h3 h4] at hmem; simp at hmem
          · rw [fss_launch_false env h1 h2 h3 h4 hfalse] at hmem ⊢
            exact ⟨fun s hs => by fin_cases s <;> simp_all [stageIdx], rfl,
                   fun k hk => by fin_cases k <;> simp_all [stageIdx, keyStage, getKey]⟩
  · cases h1 : wake_pc env.wolOutcome
    · rw [fss_wake_false env h1] at hmem; simp at hmem
    · cases h2 : wait_for_network env.pingAttempts
      · rw [fss_network_false env h1 h2] at hmem; simp at hmem
      · cases h3 : wait_for_ssh env.sshAttempts
        · rw [fss_ssh_false env h1 h2 h3] at hmem; simp at hmem
        · cases h4 : wait_for_desktop env.desktopAttempts
          · rw [fss_desktop_false env h1 h2 h3 h4] at hmem; simp at hmem
          · cases h5 : launch_zwift env.launchZwiftOutcome
            · rw [fss_launch_false env h1 h2 h3 h4 h5] at hmem; simp at hmem
            · rw [fss_zwift_false env h1 h2 h3 h4 h5 hfalse] at hmem ⊢
              exact ⟨fun s hs => by fin_cases s <;> simp_all [stageIdx], rfl,
                     fun k hk => by fin_cases k <;> simp_all [stageIdx, keyStage, getKey]⟩

/-- Concrete instance of `full_start_gating`: the desktop never loads, so
the sequence stops after the four boot stages. -/
theorem full_start_gating_witness :
    (Stage.waitForDesktop ∈ gatingStages ∧
     runStage
       { wolOutcome := .completed 0, pingAttempts := [.completed 0 5],
         sshAttempts := [.connected], desktopAttempts := [.raised],
         stopSunshineOutcome := .raised, killOutcome := .raised,
         launchZwiftOutcome := .raised, activateOutcome := .raised,
         sauceOutcome := .raised, zwiftAttempts := [],
         prioritiesOutcome := .raised } .waitForDesktop = false ∧
     Stage.waitForDesktop ∈
       (full_start_sequence
         { wolOutcome := .completed 0, pingAttempts := [.completed 0 5],
           sshAttempts := [.connected], desktopAttempts := [.raised],
           stopSunshineOutcome := .raised, killOutcome := .raised,
           launchZwiftOutcome := .raised, activateOutcome := .raised,
           sauceOutcome := .raised, zwiftAttempts := [],
           prioritiesOutcome := .raised }).2) ∧
    (full_start_sequence
      { wolOutcome := .completed 0, pingAttempts := [.completed 0 5],
        sshAttempts := [.connected], desktopAttempts := [.raised],
        stopSunshineOutcome := .raised, killOutcome := .raised,
        launchZwiftOutcome := .raised, activateOutcome := .raised,
        sauceOutcome := .raised, zwiftAttempts := [],
        prioritiesOutcome := .raised }).1.success = false := by
  have h := full_start_gating
    { wolOutcome := .completed 0, pingAttempts := [.completed 0 5],
      sshAttempts := [.connected], desktopAttempts := [.raised],
      stopSunshineOutcome := .raised, killOutcome := .raised,
      launchZwiftOutcome := .raised, activateOutcome := .raised,
      sauceOutcome := .raised, zwiftAttempts := [],
      prioritiesOutcome := .raised } .waitForDesktop
    (by decide) (by decide) (by decide)
  exact ⟨⟨by decide, by decide, by decide⟩, h.2.1⟩

/-- Looking up the key just written by `setTask`: present keys read back
the new task, absent keys stay absent. -/
theorem getTask_setTask (m : TaskMap) (i : Nat) (t : Task) :
    getTask (setTask m i t) i = (getTask m i).map fun _ => t := by
  induction m with
  | nil => simp [getTask, setTask]
  | cons kv rest ih =>
      obtain ⟨k, v⟩ := kv
      by_cases h : k = i <;> simp [getTask, setTask, h, ih]

/-- An environment in which every stage succeeds. -/
def envAllOk : Env :=
  { wolOutcome := .completed 0, pingAttempts := [.completed 0 5],
    sshAttempts := [.connected], desktopAttempts := [.result "explorer" "" 0],
    stopSunshineOutcome := .result "Stopped successfully" "" 0,
    killOutcome := .result "Killed" "" 0,
    launchZwiftOutcome := .result "" "" 0,
    activateOutcome := .result "" "" 0,
    sauceOutcome := .result "" "" 0,
    zwiftAttempts := [.result "ZwiftApp" "" 0],
    prioritiesOutcome := .result "" "" 0 }

/-- C2: along any run of `run_start_sequence` or `run_wake_sequence` on a
freshly created (pending, fieldless) task, every snapshot of the task is
present, each status step is legal — `Pending→Running`
(`mark_task_running`), `Running→Completed/Failed` (`mark_task_completed` /
`mark_task_failed`), never out of a terminal state — and every snapshot
satisfies: `started_at` set iff the status has left `Pending`,
`completed_at` set iff the status is terminal, `error` set iff the status
is `Failed`. -/
theorem task_lifecycle :
    ∀ (env : Env) (m : TaskMap) (i clock : Nat) (t0 : Task),
      getTask m i = some t0 → t0.status = .pending → t0.started_at = none →
      t0.completed_at = none → t0.error = none →
      snapsOk t0 (run_start_sequence env m i clock).snaps = true ∧
      snapsOk t0 (run_wake_sequence env m i clock).snaps = true := by
  intro env m i clock t0 h0 hpend hstart hcomp herr
  constructor
  · cases h1 : wake_pc env.wolOutcome
    · simp [run_start_sequence, mark_task_running, mark_task_failed,
            update_task_progress, getTask_setTask, h0, hpend, hstart, hcomp, herr,
            snapsOk, okStep, fieldInv, h1]
    · cases h2 : wait_for_network env.pingAttempts
      · simp [run_start_sequence, mark_task_running, mark_task_failed,
              update_task_progress, getTask_setTask, h0, hpend, hstart, hcomp, herr,
              snapsOk, okStep, fieldInv, h1, h2]
      · cases h3 : wait_for_ssh env.sshAttempts
        · simp [run_start_sequence, mark_task_running, mark_task_failed,
                update_task_progress, getTask_setTask, h0, hpend, hstart, hcomp, herr,
                snapsOk, okStep, fieldInv, h1, h2, h3]
        · cases h4 : wait_for_desktop env.desktopAttempts
          · simp [run_start_sequence, mark_task_running, mark_task_failed,
                  update_task_progress, getTask_setTask, h0, hpend, hstart, hcomp,
                  herr, snapsOk, okStep, fieldInv, h1, h2, h3, h4]
          · cases h5 : launch_zwift env.launchZwiftOutcome
            · simp [run_start_sequence, mark_task_running, mark_task_failed,
                    update_task_progress, getTask_setTask, h0, hpend, hstart, hcomp,
                    herr, snapsOk, okStep, fieldInv, h1, h2, h3, h4, h5]
            · cases h6 : wait_for_zwift env.zwiftAttempts
              · simp [run_start_sequence, mark_task_running, mark_task_failed,
                      update_task_progress, getTask_setTask, h0, hpend, hstart,
                      hcomp, herr, snapsOk, okStep, fieldInv, h1, h2, h3, h4, h5, h6]
              · simp [run_start_sequence, mark_task_running, mark_task_completed,
                      mark_task_failed, update_task_progress, getTask_setTask, h0,
                      hpend, hstart, hcomp, herr, snapsOk, okStep, fieldInv,
                      h1, h2, h3, h4, h5, h6]
  · cases h1 : wake_pc env.wolOutcome
    · simp [run_wake_sequence, mark_task_running, mark_task_failed,
            update_task_progress, getTask_setTask, h0, hpend, hstart, hcomp, herr,
            snapsOk, okStep, fieldInv, h1]
    · cases h2 : wait_for_network env.pingAttempts
      · simp [run_wake_sequence, mark_task_running, mark_task_failed,
              update_task_progress, getTask_setTask, h0, hpend, hstart, hcomp, herr,
              snapsOk, okStep, fieldInv, h1, h2]
      · cases h3 : wait_for_ssh env.sshAttempts
        · simp [run_wake_sequence, mark_task_running, mark_task_failed,
                update_task_progress, getTask_setTask, h0, hpend, hstart, hcomp,
                herr, snapsOk, okStep, fieldInv, h1, h2, h3]
        · simp [run_wake_sequence, mark_task_running, mark_task_completed,
                update_task_progress, getTask_setTask, h0, hpend, hstart, hcomp,
                herr, snapsOk, okStep, fieldInv, h1, h2, h3]

/-- Concrete instance of `task_lifecycle`: a fresh task driven through the
fully successful start sequence. -/
theorem task_lifecycle_witness :
    (getTask [(1, sampleTask)] 1 = some sampleTask ∧
     sampleTask.status = .pending ∧ sampleTask.started_at = none ∧
     sampleTask.completed_at = none ∧ sampleTask.error = none) ∧
    snapsOk sampleTask (run_start_sequence envAllOk [(1, sampleTask)] 1 5).snaps
      = true := by
  have h := task_lifecycle envAllOk [(1, sampleTask)] 1 5 sampleTask
    (by decide) (by decide) (by decide) (by decide) (by decide)
  exact ⟨⟨by decide, by decide, by decide, by decide, by decide⟩, h.1⟩

/-- An environment in which every stage succeeds except `launch_zwift`,
whose remote command exits with code 1. -/
def envLaunchFail : Env :=
  { envAllOk with launchZwiftOutcome := .result "" "ERROR: access denied" 1 }

/-- C7: when `launch_zwift` observes exit code 1 from the remote command
(after the four boot gates succeed), the tracked start-sequence task ends
`Failed` with the error "Failed to launch Zwift" (which names Zwift), and
in the `full_start_sequence` result map `sauce_launched` and
`priorities_set` remain `False`. -/
theorem launch_failure_consequences :
    ∀ (env : Env) (m : TaskMap) (i clock : Nat) (t0 : Task) (s e : String),
      getTask m i = some t0 →
      env.launchZwiftOutcome = .result s e 1 →
      wake_pc env.wolOutcome = true → wait_for_network env.pingAttempts = true →
      wait_for_ssh env.sshAttempts = true → wait_for_desktop env.desktopAttempts = true →
      ((getTask (run_start_sequence env m i clock).tasks i).map Task.status =
         some .failed ∧
       (getTask (run_start_sequence env m i clock).tasks i).bind Task.error =
         some "Failed to launch Zwift" ∧
       mentionsZwift "Failed to launch Zwift" = true) ∧
      ((full_start_sequence env).1.sauce_launched = false ∧
       (full_start_sequence env).1.priorities_set = false) := by
  intro env m i clock t0 s e h0 hlaunch h1 h2 h3 h4
  have h5 : launch_zwift env.launchZwiftOutcome = false := by
    simp [hlaunch, launch_zwift]
  refine ⟨⟨?_, ?_, by decide⟩, ?_⟩
  · simp [run_start_sequence, mark_task_running, mark_task_failed,
          update_task_progress, getTask_setTask, h0, h1, h2, h3, h4, h5]
  · simp [run_start_sequence, mark_task_running, mark_task_failed,
          update_task_progress, getTask_setTask, h0, h1, h2, h3, h4, h5]
  · rw [fss_launch_false env h1 h2 h3 h4 h5]
    exact ⟨rfl, rfl⟩

/-- Concrete instance of `launch_failure_consequences`: boot succeeds,
`schtasks` exits 1, the task fails naming Zwift. -/
theorem launch_failure_consequences_witness :
    (getTask [(1, sampleTask)] 1 = some sampleTask ∧
     envLaunchFail.launchZwiftOutcome = .result "" "ERROR: access denied" 1 ∧
     wake_pc envLaunchFail.wolOutcome = true ∧
     wait_for_network envLaunchFail.pingAttempts = true ∧
     wait_for_ssh envLaunchFail.sshAttempts = true ∧
     wait_for_desktop envLaunchFail.desktopAttempts = true) ∧
    ((getTask (run_start_sequence envLaunchFail [(1, sampleTask)] 1 0).tasks 1).map
       Task.status = some .failed ∧
     (full_start_sequence envLaunchFail).1.sauce_launched = false) := by
  have h := launch_failure_consequences envLaunchFail [(1, sampleTask)] 1 0
    sampleTask "" "ERROR: access denied" (by decide) (by decide) (by decide)
    (by decide) (by decide) (by decide)
  exact ⟨⟨by decide, by decide, by decide, by decide, by decide, by decide⟩,
         h.1.1, h.2.1⟩

/-- C3 counterexample: the two start paths do not drive the same stages —
in a fully successful environment `full_start_sequence` invokes
`kill_zwift_processes` while `TaskManager.run_start_sequence` never does. -/
theorem start_paths_differ :
    Stage.killZwift ∈ (full_start_sequence envAllOk).2 ∧
    Stage.killZwift ∉ (run_start_sequence envAllOk [(1, sampleTask)] 1 0).invoked := by
  decide

/-- C3 (amended): `TaskManager.run_start_sequence` drives the same stages
of `PCControlService`, in the same order and with the same gating
behaviour, as `full_start_sequence`, except that it omits the (always
succeeding, never gating) `kill_zwift_processes` stage: its invoked-stage
list is the canned sequence's list with `kill_zwift_processes` filtered
out, and the tracked task ends `Completed` exactly when the canned
sequence reports `success=True`, `Failed` otherwise. -/
theorem start_paths_alignment :
    ∀ (env : Env) (m : TaskMap) (i clock : Nat),
      (run_start_sequence env m i clock).invoked =
        (full_start_sequence env).2.filter (fun s => decide (s ≠ Stage.killZwift)) ∧
      ((getTask m i).isSome = true →
        (getTask (run_start_sequence env m i clock).tasks i).map Task.status =
          some (if (full_start_sequence env).1.success then .completed else .failed)) := by
  intro env m i clock
  have key : ∀ t0 : Task, getTask m i = some t0 →
      (run_start_sequence env m i clock).invoked =
        (full_start_sequence env).2.filter (fun s => decide (s ≠ Stage.killZwift)) ∧
      (getTask (run_start_sequence env m i clock).tasks i).map Task.status =
        some (if (full_start_sequence env).1.success then .completed else .failed) := by
    intro t0 h0
    cases h1 : wake_pc env.wolOutcome
    · rw [fss_wake_false env h1]
      simp [run_start_sequence, mark_task_running, mark_task_failed,
            update_task_progress, getTask_setTask, h0, h1]
    · cases h2 : wait_for_network env.pingAttempts
      · rw [fss_network_false env h1 h2]
        simp [run_start_sequence, mark_task_running, mark_task_failed,
              update_task_progress, getTask_setTask, h0, h1, h2]
      · cases h3 : wait_for_ssh env.sshAttempts
        · rw [fss_ssh_false env h1 h2 h3]
          simp [run_start_sequence, mark_task_running, mark_task_failed,
                update_task_progress, getTask_setTask, h0, h1, h2, h3]
        · cases h4 : wait_for_desktop env.desktopAttempts
          · rw [fss_desktop_false env h1 h2 h3 h4]
            simp [run_start_sequence, mark_task_running, mark_task_failed,
                  update_task_progress, getTask_setTask, h0, h1, h2, h3, h4]
          · cases h5 : launch_zwift env.launchZwiftOutcome
            · rw [fss_launch_false env h1 h2 h3 h4 h5]
              simp [run_start_sequence, mark_task_running, mark_task_failed,
                    update_task_progress, getTask_setTask, h0, h1, h2, h3, h4, h5]
            · cases h6 : wait_for_zwift env.zwiftAttempts
              · rw [fss_zwift_false env h1 h2 h3 h4 h5 h6]
                simp [run_start_sequence, mark_task_running, mark_task_failed,
                      update_task_progress, getTask_setTask, h0,
                      h1, h2, h3, h4, h5, h6]
              · rw [fss_success env h1 h2 h3 h4 h5 h6]
                simp [run_start_sequence, mark_task_running, mark_task_completed,
                      update_task_progress, getTask_setTask, h0,
                      h1, h2, h3, h4, h5, h6]
  cases h0 : getTask m i with
  | none =>
      constructor
      · cases h1 : wake_pc env.wolOutcome
        · rw [fss_wake_false env h1]
          simp [run_start_sequence, mark_task_running, mark_task_failed,
                update_task_progress, h0, h1]
        · cases h2 : wait_for_network env.pingAttempts
          · rw [fss_network_false env h1 h2]
            simp [run_start_sequence, mark_task_running, mark_task_failed,
                  update_task_progress, h0, h1, h2]
          · cases h3 : wait_for_ssh env.sshAttempts
            · rw [fss_ssh_false env h1 h2 h3]
              simp [run_start_sequence, mark_task_running, mark_task_failed,
                    update_task_progress, h0, h1, h2, h3]
            · cases h4 : wait_for_desktop env.desktopAttempts
              · rw [fss_desktop_false env h1 h2 h3 h4]
                simp [run_start_sequence, mark_task_running, mark_task_failed,
                      update_task_progress, h0, h1, h2, h3, h4]
              · cases h5 : launch_zwift env.launchZwiftOutcome
                · rw [fss_launch_false env h1 h2 h3 h4 h5]
                  simp [run_start_sequence, mark_task_running, mark_task_failed,
                        update_task_progress, h0, h1, h2, h3, h4, h5]
                · cases h6 : wait_for_zwift env.zwiftAttempts
                  · rw [fss_zwift_false env h1 h2 h3 h4 h5 h6]
                    simp [run_start_sequence, mark_task_running, mark_task_failed,
                          update_task_progress, h0, h1, h2, h3, h4, h5, h6]
                  · rw [fss_success env h1 h2 h3 h4 h5 h6]
                    simp [run_start_sequence, mark_task_running,
                          mark_task_completed, update_task_progress, h0,
                          h1, h2, h3, h4, h5, h6]
      · intro hsome
        simp [h0] at hsome
  | some t0 =>
      exact ⟨(key t0 h0).1, fun _ => (key t0 h0).2⟩

/-- Concrete instance of `start_paths_alignment`: fully successful
environment, one tracked task. -/
theorem start_paths_alignment_witness :
    (run_start_sequence envAllOk [(1, sampleTask)] 1 0).invoked =
      (full_start_sequence envAllOk).2.filter (fun s => decide (s ≠ Stage.killZwift)) ∧
    ((getTask [(1, sampleTask)] 1).isSome = true ∧
     (getTask (run_start_sequence envAllOk [(1, sampleTask)] 1 0).tasks 1).map
        Task.status =
       some (if (full_start_sequence envAllOk).1.success
             then TaskStatus.completed else TaskStatus.failed)) := by
  have h := start_paths_alignment envAllOk [(1, sampleTask)] 1 0
  exact ⟨h.1, by decide, h.2 (by decide)⟩

end ZwiftRemote
